import Mathlib

/-!
# Verification of the GRI ESG reporting core (`gri_1.py`)

A shallow embedding of the computation and report-assembly core of the
repository's single source file. The interactive widget layer is modelled
as the raw values it supplies (`RawInputs`); numeric values are embedded
as exact rationals (`ℚ`), and the one wall-clock read is modelled as the
`now` input. Every definition mirrors the corresponding construct of the
source; theorems about the spec's claims follow the definitions.
-/

set_option autoImplicit false
set_option linter.unusedVariables false

/-- The fixed Scope-1 emission-factor table `INDIA_SCOPE1_EF` (lines 18–24),
in its declared order. -/
def INDIA_SCOPE1_EF : List (String × ℚ) :=
  [("Diesel (litres)", 2.68),
   ("Petrol (litres)", 2.31),
   ("Furnace Oil (litres)", 3.10),
   ("LPG (kg)", 2.95),
   ("Natural Gas (scm)", 1.93)]

/-- The fixed grid factor `INDIA_GRID_EF_T_PER_KWH` (line 25). -/
def INDIA_GRID_EF_T_PER_KWH : ℚ := 0.00082

/-- The fixed Scope-3 emission-factor table `DEFRA_SCOPE3_EF` (lines 26–35),
in its declared order. -/
def DEFRA_SCOPE3_EF : List (String × ℚ) :=
  [("Purchased Goods & Services (₹ lakh)", 1.95),
   ("Capital Goods (₹ lakh)", 2.40),
   ("Fuel & Energy‑Related Activities (GJ)", 0.000125),
   ("Upstream T&D (t‑km)", 0.000055),
   ("Waste Generated (t)", 0.98),
   ("Business Travel (passenger‑km)", 0.00018),
   ("Employee Commuting (passenger‑km)", 0.00012),
   ("End‑of‑Life Treatment (t)", 1.15)]

/-- The fixed material-topic catalog `MATERIAL_TOPICS` (lines 36–41). -/
def MATERIAL_TOPICS : List String :=
  ["Employee Health, Safety & Wellbeing", "Climate Action", "Product Stewardship",
   "Responsible Supply Chain", "Talent Management & Training", "Human Rights & Labour Practices",
   "Circular Economy", "Environmental Protection", "Business Ethics", "Corruption",
   "Air Pollution", "Water", "Community Relations", "Data Privacy"]

/-- A per-topic entry, as built by the topic expander loop (line 89):
`{"stakeholders": stk, "risks": rsk, "opportunities": opp, "kpis": kpis}`. -/
structure TopicEntry where
  stakeholders : String
  risks : String
  opportunities : String
  kpis : List String
deriving DecidableEq, Repr

/-- Function `ai_narrative` (lines 43–44): the stubbed narrative generator. -/
def ai_narrative (_topic : String) (_info : TopicEntry) : String :=
  "(AI narrative disabled: OpenAI not configured)"

/-- One Scope-3 row `{"Category": cat, "Qty": qty, "EF": ef_input, "Emissions": em}`
(line 115). -/
structure CategoryRow where
  category : String
  qty : ℚ
  ef : ℚ
  emissions : ℚ
deriving DecidableEq, Repr

/-- The per-category Scope-3 user input: the quantity widget (line 111,
default 0) and the optional emission-factor override (line 112, whose widget
default is the table factor; `none` models leaving the default untouched). -/
structure Scope3Entry where
  qty : ℚ
  efOverride : Option ℚ
deriving DecidableEq, Repr

/-- The quantity supplied for a key, defaulting to the widget default `0.0`
when the key was not entered (lines 98 and 111). -/
def qtyOf (input : List (String × ℚ)) (key : String) : ℚ :=
  (input.lookup key).getD 0

/-- Variable `scope1_total` (lines 96–99): the running sum `qty * ef` over the fixed
Scope-1 table, in its declared order. -/
def scope1_total (input : List (String × ℚ)) : ℚ :=
  INDIA_SCOPE1_EF.foldl (fun acc p => acc + qtyOf input p.1 * p.2) 0

/-- One iteration of the Scope-1 loop (line 99): the per-fuel emissions
value `qty * ef` added to the running total. -/
def scope1_emission (input : List (String × ℚ)) (fuel : String) (ef : ℚ) : ℚ :=
  qtyOf input fuel * ef

/-- Variable `scope2_total` (line 104): `kwh * INDIA_GRID_EF_T_PER_KWH`. -/
def scope2_total (kwh : ℚ) : ℚ :=
  kwh * INDIA_GRID_EF_T_PER_KWH

/-- The Scope-3 entry supplied for a category, defaulting to the widget
defaults (quantity `0.0`, factor left at the table value) when the category
was not entered (lines 111–112). -/
def entryFor (input : List (String × Scope3Entry)) (cat : String) : Scope3Entry :=
  (input.lookup cat).getD { qty := 0, efOverride := none }

/-- One iteration of the Scope-3 loop (lines 109–115) for a table pair
`(cat, ef)`: `ef_input` is the override when supplied, else the table
default; `em = qty * ef_input`. -/
def scope3_row (input : List (String × Scope3Entry)) (p : String × ℚ) : CategoryRow :=
  let e := entryFor input p.1
  let ef_input := e.efOverride.getD p.2
  { category := p.1, qty := e.qty, ef := ef_input, emissions := e.qty * ef_input }

/-- Variable `scope3_rows` (lines 108–115): one row per fixed table category, in the
table's declared order. -/
def scope3_rows (input : List (String × Scope3Entry)) : List CategoryRow :=
  DEFRA_SCOPE3_EF.map (scope3_row input)

/-- Variable `total_scope3` (lines 108–114): the sum of the per-category emissions
accumulated by the same loop that builds the rows. -/
def total_scope3 (input : List (String × Scope3Entry)) : ℚ :=
  (DEFRA_SCOPE3_EF.map (fun p => (scope3_row input p).emissions)).sum

/-- Round a rational to the nearest integer, ties to even, mirroring
Python's `round`. -/
def roundHalfEven (x : ℚ) : ℤ :=
  let f := ⌊x⌋
  let frac := x - f
  if frac < 1/2 then f
  else if 1/2 < frac then f + 1
  else if f % 2 = 0 then f else f + 1

/-- The Python builtin `round(x, 2)` as used on lines 143–145. -/
def round2 (x : ℚ) : ℚ :=
  ((roundHalfEven (x * 100) : ℤ) : ℚ) / 100

/-- The `environmental` sub-dictionary of the report (lines 142–150), fields
in the source's insertion order. -/
structure Environmental where
  scope1 : ℚ
  scope2 : ℚ
  scope3 : ℚ
  energy : ℚ
  renewable : ℚ
  water : ℚ
  waste : ℚ
deriving DecidableEq, Repr

/-- The `social` sub-dictionary of the report (lines 152–157). -/
structure Social where
  employees : ℤ
  ltifr : ℚ
  trainingHours : ℚ
  femalePct : ℚ
deriving DecidableEq, Repr

/-- The `governance` sub-dictionary of the report (lines 158–163). -/
structure Governance where
  ethicsTrainedPct : ℚ
  dataBreaches : ℤ
  boardSize : ℤ
  independentDirectors : ℤ
deriving DecidableEq, Repr

/-- The shape of the `report` dictionary (lines 136–165). -/
structure ReportRecord where
  company : String
  period : String
  frameworks : List String
  topics : List (String × TopicEntry)
  narratives : List (String × String)
  environmental : Environmental
  scope3_details : List CategoryRow
  social : Social
  governance : Governance
  created : String
deriving DecidableEq, Repr

/-- The raw values the widget layer supplies to the script, plus the one
wall-clock read `str(dt.datetime.now())` as `now`. -/
structure RawInputs where
  company : String
  report_period : String
  frameworks : List String
  topic_info : List (String × TopicEntry)
  gen_ai : Bool
  fuelQty : List (String × ℚ)
  kwh : ℚ
  scope3 : List (String × Scope3Entry)
  energy_gj : ℚ
  renew_gj : ℚ
  water_m3 : ℚ
  waste_t : ℚ
  emp : ℤ
  ltifr : ℚ
  train_hr : ℚ
  female_pct : ℚ
  ethics_pct : ℚ
  board_size : ℤ
  indep_dir : ℤ
  data_breach : ℤ
  now : String
deriving DecidableEq, Repr

/-- The `narratives` dictionary (lines 82, 91–93): one stub narrative per
entered topic when the checkbox is set, empty otherwise. -/
def narrativesOf (inp : RawInputs) : List (String × String) :=
  if inp.gen_ai then inp.topic_info.map (fun p => (p.1, ai_narrative p.1 p.2)) else []

/-- The construction of `report` (lines 136–165) from the raw inputs: the
three scope totals are computed by the loops above, rounded to two decimals;
every other field is carried over verbatim. -/
def buildReport (inp : RawInputs) : ReportRecord :=
  { company := inp.company
    period := inp.report_period
    frameworks := inp.frameworks
    topics := inp.topic_info
    narratives := narrativesOf inp
    environmental :=
      { scope1 := round2 (scope1_total inp.fuelQty)
        scope2 := round2 (scope2_total inp.kwh)
        scope3 := round2 (total_scope3 inp.scope3)
        energy := inp.energy_gj
        renewable := inp.renew_gj
        water := inp.water_m3
        waste := inp.waste_t }
    scope3_details := scope3_rows inp.scope3
    social :=
      { employees := inp.emp
        ltifr := inp.ltifr
        trainingHours := inp.train_hr
        femalePct := inp.female_pct }
    governance :=
      { ethicsTrainedPct := inp.ethics_pct
        dataBreaches := inp.data_breach
        boardSize := inp.board_size
        independentDirectors := inp.indep_dir }
    created := inp.now }

/-- An element of the document built by `build_docx`: a heading with a
level, a paragraph, or a table given as its rows of cells. -/
inductive DocItem where
  | heading : String → Nat → DocItem
  | para : String → DocItem
  | table : List (List String) → DocItem
deriving DecidableEq, Repr

/-- Rendering of a numeric value into document text (the `str(...)` /
f-string interpolation of the source, abstracted over the host float
syntax). -/
def ratStr (q : ℚ) : String := toString q

/-- The fixed two-decimal float formatting of line 67. -/
def fmt2 (q : ℚ) : String :=
  let r := roundHalfEven (q * 100)
  let sign := if r < 0 then "-" else ""
  let n := r.natAbs
  let d := n % 100
  sign ++ toString (n / 100) ++ "." ++ (if d < 10 then "0" else "") ++ toString d

/-- The environmental-KPI paragraphs of the document (lines 56–57), one per
entry of the `environmental` dictionary in its insertion order. -/
def envLines (e : Environmental) : List DocItem :=
  [.para ("Scope 1: " ++ ratStr e.scope1),
   .para ("Scope 2: " ++ ratStr e.scope2),
   .para ("Scope 3: " ++ ratStr e.scope3),
   .para ("Energy: " ++ ratStr e.energy),
   .para ("Renewable: " ++ ratStr e.renewable),
   .para ("Water: " ++ ratStr e.water),
   .para ("Waste: " ++ ratStr e.waste)]

/-- Function `build_docx` (lines 46–67), as the sequence of items added to the
document: the fixed title heading, the period and framework paragraphs, one
heading+paragraph per narrative, the environmental KPI paragraphs, and the
Scope-3 table (header row followed by one row per `scope3_details` entry in
order). -/
def build_docx (data : ReportRecord) : List DocItem :=
  [DocItem.heading "GRI ESG Report – COPMANY NAME" 0,
   DocItem.para ("Reporting period: " ++ data.period),
   DocItem.para ("Frameworks: " ++ String.intercalate ", " data.frameworks),
   DocItem.heading "Material Topic Narratives" 1]
  ++ (data.narratives.flatMap (fun p => [DocItem.heading p.1 2, DocItem.para p.2]))
  ++ [DocItem.heading "Environmental KPIs" 1]
  ++ envLines data.environmental
  ++ [DocItem.heading "Scope 3 Breakdown" 2,
      DocItem.table
        (["Category", "Qty", "EF", "Emissions"] ::
          data.scope3_details.map
            (fun row => [row.category, ratStr row.qty, ratStr row.ef, fmt2 row.emissions]))]

/-- The tables of a document, in order of appearance. -/
def docTables (d : List DocItem) : List (List (List String)) :=
  d.filterMap (fun item =>
    match item with
    | .table t => some t
    | _ => none)

/-- The first row produced for a category, if any. -/
def rowFor (cat : String) (rows : List CategoryRow) : Option CategoryRow :=
  rows.find? (fun r => r.category == cat)

/-- A concrete assignment of the raw inputs, used to instantiate the
universally quantified theorems below at the scenario values of the spec. -/
def sampleInputs : RawInputs :=
  { company := "ACME"
    report_period := "01 April 2025 – 31 March 2026"
    frameworks := ["GRI Standards 2021", "SDGs"]
    topic_info := [("Climate Action",
      { stakeholders := "Investors", risks := "Transition risk",
        opportunities := "Efficiency", kpis := ["tCO2e"] })]
    gen_ai := false
    fuelQty := [("Diesel (litres)", 100)]
    kwh := 100000
    scope3 := [("Waste Generated (t)", { qty := 10, efOverride := some 1.5 })]
    energy_gj := 12
    renew_gj := 3
    water_m3 := 40
    waste_t := 10
    emp := 250
    ltifr := 0.4
    train_hr := 1200
    female_pct := 31
    ethics_pct := 95
    board_size := 9
    indep_dir := 4
    data_breach := 0
    now := "2026-04-01 00:00:00" }

/-- Looking a key up after appending a binding for a different key is the
same as looking it up in the original association list. -/
theorem lookup_append_single {β : Type} (l : List (String × β)) (k c : String) (e : β)
    (hc : k ≠ c) : (l ++ [(c, e)]).lookup k = l.lookup k := by
  induction l with
  | nil =>
    have hb : (k == c) = false := beq_eq_false_iff_ne.mpr hc
    simp [List.lookup, hb]
  | cons hd tl ih =>
    obtain ⟨k1, v1⟩ := hd
    simp only [List.cons_append, List.lookup_cons]
    rw [ih]

/-- Finding the row of a category in the rows mapped over a factor table
returns the row built from the factor the table holds for that category. -/
theorem find_row_of_lookup (input : List (String × Scope3Entry)) (cat : String) (df : ℚ) :
    ∀ (l : List (String × ℚ)), l.lookup cat = some df →
      (l.map (scope3_row input)).find? (fun r => r.category == cat) =
        some (scope3_row input (cat, df)) := by
  intro l
  induction l with
  | nil => intro h; simp [List.lookup] at h
  | cons hd tl ih =>
    intro h
    by_cases hc : cat = hd.1
    · subst hc
      simp [List.lookup] at h
      simp [scope3_row, h]
    · rw [List.lookup_cons] at h
      simp [BEq.symm_false, hc] at h
      simp only [List.map_cons, List.find?]
      have hb : ((scope3_row input hd).category == cat) = false := by
        simp [scope3_row]
        exact fun hh => hc hh.symm
      rw [hb]
      exact ih h

/-- Appending an entry for a category outside the fixed catalog leaves every
Scope-3 row unchanged. -/
theorem scope3_rows_append_unknown (input : List (String × Scope3Entry)) (cat : String)
    (e : Scope3Entry) (hc : ¬ cat ∈ DEFRA_SCOPE3_EF.map Prod.fst) :
    scope3_rows (input ++ [(cat, e)]) = scope3_rows input := by
  unfold scope3_rows
  apply List.map_congr_left
  intro p hp
  have hne : p.1 ≠ cat := by
    intro hh
    exact hc (hh ▸ List.mem_map_of_mem Prod.fst hp)
  simp [scope3_row, entryFor, lookup_append_single _ _ _ _ hne]

/-- Appending an entry for a category outside the fixed catalog leaves the
Scope-3 total unchanged. -/
theorem total_scope3_append_unknown (input : List (String × Scope3Entry)) (cat : String)
    (e : Scope3Entry) (hc : ¬ cat ∈ DEFRA_SCOPE3_EF.map Prod.fst) :
    total_scope3 (input ++ [(cat, e)]) = total_scope3 input := by
  unfold total_scope3
  have h := scope3_rows_append_unknown input cat e hc
  unfold scope3_rows at h
  have hmap : DEFRA_SCOPE3_EF.map (fun p => (scope3_row (input ++ [(cat, e)]) p).emissions) =
      DEFRA_SCOPE3_EF.map (fun p => (scope3_row input p).emissions) := by
    apply List.map_congr_left
    intro p hp
    have hne : p.1 ≠ cat := by
      intro hh
      exact hc (hh ▸ List.mem_map_of_mem Prod.fst hp)
    simp [scope3_row, entryFor, lookup_append_single _ _ _ _ hne]
  rw [hmap]

/-- C1: for every Scope-3 category of the fixed DEFRA catalog, the row the
computation produces for that category has as factor exactly the
user-supplied override when one is provided and exactly the fixed default
factor of the catalog otherwise, and its emissions are the quantity times
that factor — the two factors are never mixed. -/
theorem c1_scope3_factor_override_or_default (input : List (String × Scope3Entry))
    (cat : String) (df : ℚ) (hdf : DEFRA_SCOPE3_EF.lookup cat = some df) :
    rowFor cat (scope3_rows input) =
      some { category := cat
             qty := (entryFor input cat).qty
             ef := ((entryFor input cat).efOverride).getD df
             emissions := (entryFor input cat).qty * ((entryFor input cat).efOverride).getD df } := by
  have h := find_row_of_lookup input cat df DEFRA_SCOPE3_EF hdf
  unfold rowFor scope3_rows
  rw [h]
  simp [scope3_row]

/-- Witness for C1 at the scenario of the spec: category "Waste Generated
(t)" with quantity 10 and no override yields row emissions 10 × 0.98 = 9.80,
and with override factor 1.5 yields 15.00. -/
theorem c1_scope3_factor_override_or_default_witness :
    rowFor "Waste Generated (t)"
        (scope3_rows [("Waste Generated (t)", { qty := 10, efOverride := none })]) =
      some { category := "Waste Generated (t)", qty := 10, ef := 0.98, emissions := 9.80 } ∧
    rowFor "Waste Generated (t)"
        (scope3_rows [("Waste Generated (t)", { qty := 10, efOverride := some 1.5 })]) =
      some { category := "Waste Generated (t)", qty := 10, ef := 1.5, emissions := 15.00 } := by
  constructor
  · rw [c1_scope3_factor_override_or_default
      [("Waste Generated (t)", { qty := 10, efOverride := none })] "Waste Generated (t)" 0.98
      (by simp +decide [DEFRA_SCOPE3_EF, List.lookup])]
    simp +decide [entryFor, List.lookup]
    norm_num
  · rw [c1_scope3_factor_override_or_default
      [("Waste Generated (t)", { qty := 10, efOverride := some 1.5 })] "Waste Generated (t)" 0.98
      (by simp +decide [DEFRA_SCOPE3_EF, List.lookup])]
    simp +decide [entryFor, List.lookup]
    norm_num

/-- C2: for every fuel-quantity assignment with non-negative quantities, the
Scope-1 computation gives each fuel of the fixed table the emissions value
quantity × fixed factor, treats fuels absent from the input as quantity 0,
and its total is the sum of those per-fuel emissions. -/
theorem c2_scope1_total_is_sum (input : List (String × ℚ)) (hnn : ∀ p ∈ input, 0 ≤ p.2) :
    scope1_total input = (INDIA_SCOPE1_EF.map (fun p => scope1_emission input p.1 p.2)).sum ∧
    (∀ fuel ef, scope1_emission input fuel ef = qtyOf input fuel * ef) ∧
    (∀ fuel, input.lookup fuel = none → qtyOf input fuel = 0) := by
  refine ⟨?_, fun fuel ef => rfl, fun fuel h => by simp [qtyOf, h]⟩
  simp [scope1_total, scope1_emission, INDIA_SCOPE1_EF]
  ring

/-- Witness for C2 at the scenario of the spec: the input assigning 100
litres of diesel and nothing else satisfies the non-negativity hypothesis,
the total equals the sum of the per-fuel emissions there, and that total is
100 × 2.68 = 268.00. -/
theorem c2_scope1_total_is_sum_witness :
    scope1_total [("Diesel (litres)", 100)] =
      (INDIA_SCOPE1_EF.map
        (fun p => scope1_emission [("Diesel (litres)", 100)] p.1 p.2)).sum ∧
    scope1_total [("Diesel (litres)", 100)] = 268 := by
  constructor
  · exact (c2_scope1_total_is_sum [("Diesel (litres)", 100)] (by norm_num)).1
  · simp +decide [scope1_total, INDIA_SCOPE1_EF, qtyOf, List.lookup]
    norm_num

/-- C3: report assembly only merges the calculator outputs and the raw KPI
inputs into the record and rounds the three scope totals to two decimal
places; every other field of the record equals the corresponding input
verbatim. -/
theorem c3_assembly_rounds_totals_copies_rest (inp : RawInputs) :
    (buildReport inp).environmental.scope1 = round2 (scope1_total inp.fuelQty) ∧
    (buildReport inp).environmental.scope2 = round2 (scope2_total inp.kwh) ∧
    (buildReport inp).environmental.scope3 = round2 (total_scope3 inp.scope3) ∧
    (buildReport inp).company = inp.company ∧
    (buildReport inp).period = inp.report_period ∧
    (buildReport inp).frameworks = inp.frameworks ∧
    (buildReport inp).topics = inp.topic_info ∧
    (buildReport inp).narratives = narrativesOf inp ∧
    (buildReport inp).environmental.energy = inp.energy_gj ∧
    (buildReport inp).environmental.renewable = inp.renew_gj ∧
    (buildReport inp).environmental.water = inp.water_m3 ∧
    (buildReport inp).environmental.waste = inp.waste_t ∧
    (buildReport inp).scope3_details = scope3_rows inp.scope3 ∧
    (buildReport inp).social.employees = inp.emp ∧
    (buildReport inp).social.ltifr = inp.ltifr ∧
    (buildReport inp).social.trainingHours = inp.train_hr ∧
    (buildReport inp).social.femalePct = inp.female_pct ∧
    (buildReport inp).governance.ethicsTrainedPct = inp.ethics_pct ∧
    (buildReport inp).governance.dataBreaches = inp.data_breach ∧
    (buildReport inp).governance.boardSize = inp.board_size ∧
    (buildReport inp).governance.independentDirectors = inp.indep_dir ∧
    (buildReport inp).created = inp.now :=
  ⟨rfl, rfl, rfl, rfl, rfl, rfl, rfl, rfl, rfl, rfl, rfl,
   rfl, rfl, rfl, rfl, rfl, rfl, rfl, rfl, rfl, rfl, rfl⟩

/-- The only table of the rendered document is the Scope-3 table: the fixed
header row followed by one row per entry of `scope3_details`, in order. -/
theorem docTables_build_docx (data : ReportRecord) :
    docTables (build_docx data) =
      [["Category", "Qty", "EF", "Emissions"] ::
        data.scope3_details.map
          (fun row => [row.category, ratStr row.qty, ratStr row.ef, fmt2 row.emissions])] := by
  unfold build_docx docTables
  simp only [List.filterMap_append, List.filterMap_cons, List.filterMap_nil]
  have hn : ∀ (l : List (String × String)),
      (l.flatMap (fun p => [DocItem.heading p.1 2, DocItem.para p.2])).filterMap
        (fun item => match item with | .table t => some t | _ => none) = [] := by
    intro l
    induction l with
    | nil => simp
    | cons hd tl ih => simpa using ih
  rw [hn]
  simp [envLines]

/-- C4: for every input, the Scope-3 rows of the calculator list the
categories in exactly the declared order of the fixed DEFRA catalog, and the
single Scope-3 table of the rendered document lists, in its data rows, the
same categories in that same order — independently of the order of the
input entries. -/
theorem c4_catalog_order (inp : RawInputs) :
    (scope3_rows inp.scope3).map CategoryRow.category = DEFRA_SCOPE3_EF.map Prod.fst ∧
    (docTables (build_docx (buildReport inp))).map
        (fun t => t.tail.map (fun r => r.headD "")) =
      [DEFRA_SCOPE3_EF.map Prod.fst] := by
  constructor
  · simp [scope3_rows, scope3_row, List.map_map]
  · rw [docTables_build_docx]
    simp [buildReport, scope3_rows, scope3_row, List.map_map]

/-- C5: the Scope-2 computation is linear in its single input: it maps 0 to
0 and doubles when the input doubles; at the scenario input 100000 kWh the
total is 100000 × 0.00082 = 82.00. -/
theorem c5_scope2_linear :
    scope2_total 0 = 0 ∧
    (∀ k : ℚ, 0 ≤ k → scope2_total (2 * k) = 2 * scope2_total k) ∧
    scope2_total 100000 = 82 := by
  refine ⟨by simp [scope2_total], fun k hk => ?_, ?_⟩
  · simp [scope2_total]; ring
  · norm_num [scope2_total, INDIA_GRID_EF_T_PER_KWH]

/-- Witness for C5: linearity applied at the concrete input 5. -/
theorem c5_scope2_linear_witness : scope2_total (2 * 5) = 2 * scope2_total 5 :=
  c5_scope2_linear.2.1 5 (by norm_num)

/-- C6: report assembly is deterministic up to the timestamp: two runs on
identical inputs that differ only in the clock reading produce records equal
in every field except `created`, and `created` carries exactly the clock
reading. -/
theorem c6_deterministic_up_to_created (inp : RawInputs) (t1 t2 : String) :
    buildReport { inp with now := t2 } =
      { buildReport { inp with now := t1 } with created := t2 } ∧
    (buildReport { inp with now := t1 }).created = t1 :=
  ⟨rfl, rfl⟩

/-- C7: every Scope-3 row constructed satisfies emissions = quantity ×
factor, the rows land unchanged in the assembled record, so every row of
`scope3_details` satisfies the same equation. -/
theorem c7_emissions_product_invariant (inp : RawInputs) :
    (buildReport inp).scope3_details = scope3_rows inp.scope3 ∧
    (∀ r ∈ (buildReport inp).scope3_details, r.emissions = r.qty * r.ef) ∧
    (∀ r ∈ scope3_rows inp.scope3, r.emissions = r.qty * r.ef) := by
  refine ⟨rfl, ?_, ?_⟩ <;>
  · intro r hr
    have h : r ∈ scope3_rows inp.scope3 := hr
    obtain ⟨p, hp, rfl⟩ := List.mem_map.mp h
    rfl

/-- The Scope-3 row of the waste category under the sample inputs. -/
def wasteRow : CategoryRow :=
  { category := "Waste Generated (t)", qty := 10, ef := 1.5, emissions := 15 }

/-- Witness for C7: the waste-category row of the assembled sample record
satisfies emissions = quantity × factor. -/
theorem c7_emissions_product_invariant_witness :
    wasteRow.emissions = wasteRow.qty * wasteRow.ef := by
  apply (c7_emissions_product_invariant sampleInputs).2.1 wasteRow
  show wasteRow ∈ scope3_rows sampleInputs.scope3
  refine List.mem_map.mpr ⟨("Waste Generated (t)", 0.98), ?_, ?_⟩
  · simp +decide [DEFRA_SCOPE3_EF]
  · simp +decide [scope3_row, entryFor, List.lookup, sampleInputs, wasteRow]
    norm_num

/-- C8 counterexample: an entry for a category outside the fixed catalog is
silently dropped, not rejected — the computation and the assembled record
are exactly what they are without the entry, so a ReportRecord is produced. -/
theorem c8_counterexample :
    scope3_rows [("Bogus Category (t)", { qty := 5, efOverride := none })] = scope3_rows [] ∧
    buildReport { sampleInputs with
        scope3 := [("Bogus Category (t)", { qty := 5, efOverride := none })] } =
      buildReport { sampleInputs with scope3 := [] } := by
  have h1 : scope3_rows [("Bogus Category (t)", { qty := 5, efOverride := none })] =
      scope3_rows [] := by
    simp +decide [scope3_rows, scope3_row, entryFor, DEFRA_SCOPE3_EF, List.lookup]
  have h2 : total_scope3 [("Bogus Category (t)", { qty := 5, efOverride := none })] =
      total_scope3 [] := by
    simp +decide [total_scope3, scope3_row, entryFor, DEFRA_SCOPE3_EF, List.lookup]
  exact ⟨h1, by simp [buildReport, narrativesOf, h1, h2]⟩

/-- C8 as amended: a Scope-3 entry referencing a category outside the fixed
catalog is silently ignored — it contributes no row and nothing to the
total, and the ReportRecord is produced exactly as if the entry were
absent. -/
theorem c8_unknown_category_silently_ignored (inp : RawInputs) (cat : String)
    (e : Scope3Entry) (hc : ¬ cat ∈ DEFRA_SCOPE3_EF.map Prod.fst) :
    scope3_rows (inp.scope3 ++ [(cat, e)]) = scope3_rows inp.scope3 ∧
    total_scope3 (inp.scope3 ++ [(cat, e)]) = total_scope3 inp.scope3 ∧
    buildReport { inp with scope3 := inp.scope3 ++ [(cat, e)] } = buildReport inp := by
  have h1 := scope3_rows_append_unknown inp.scope3 cat e hc
  have h2 := total_scope3_append_unknown inp.scope3 cat e hc
  refine ⟨h1, h2, ?_⟩
  simp [buildReport, narrativesOf, h1, h2]

/-- Witness for C8 as amended: appending a bogus-category entry to the
sample inputs leaves the assembled record unchanged. -/
theorem c8_unknown_category_silently_ignored_witness :
    buildReport { sampleInputs with
        scope3 := sampleInputs.scope3 ++
          [("Bogus Category (t)", { qty := 5, efOverride := none })] } =
      buildReport sampleInputs :=
  (c8_unknown_category_silently_ignored sampleInputs "Bogus Category (t)"
    { qty := 5, efOverride := none } (by decide)).2.2

/-- C9: for every input, the assembled record holds exactly 8 Scope-3 rows,
their categories are exactly those of the fixed DEFRA catalog in its
declared order, and no category appears twice. -/
theorem c9_exactly_eight_rows (inp : RawInputs) :
    (buildReport inp).scope3_details.length = 8 ∧
    (buildReport inp).scope3_details.map CategoryRow.category = DEFRA_SCOPE3_EF.map Prod.fst ∧
    ((buildReport inp).scope3_details.map CategoryRow.category).Nodup := by
  have h : (buildReport inp).scope3_details.map CategoryRow.category =
      DEFRA_SCOPE3_EF.map Prod.fst := by
    simp [buildReport, scope3_rows, scope3_row, List.map_map]
  refine ⟨rfl, h, ?_⟩
  rw [h]
  decide

/-- C10: the rendered document does not depend on the company field of the
record — the title heading is the fixed literal string of the source, and
the company field is never read during rendering. -/
theorem c10_company_field_never_read (data : ReportRecord) (c : String) :
    build_docx { data with company := c } = build_docx data ∧
    build_docx data =
      DocItem.heading "GRI ESG Report – COPMANY NAME" 0 :: (build_docx data).tail :=
  ⟨rfl, rfl⟩
